import Mathlib

/-!
# rados.c: a trace model of the rbd demo client

`src/rados.c` is a sequential client of librados/librbd.  Its observable
behaviour is the order and the arguments of the calls it makes, what it writes
to stdout/stderr, and the value `main` returns.  The embedding below is a
state-passing translation of every function of the file:

* the file-scope variables of `rados.c` are the fields of `State`, together
  with the trace of observable events produced so far;
* the external library is a parameter (`Lib`): it gives the `int` result of
  every call and the handle a call stores through its out-pointer.  No call
  whose result is used is made twice with the same arguments, so every
  assignment of results to the calls of one run is given by some `Lib`.  The
  handle is stored whether or not the call fails; a library that leaves the
  variable alone on failure is the `Lib` whose `out` is the old value;
* the `int` results of the librados / librbd calls are modelled by `Int`: the
  program compares them with 0 and negates them for `strerror` only.  The one
  wider result, the `ssize_t` of `rbd_aio_get_return_value`, is narrowed to
  32 bits where the callback stores it in `int ret` (`to_int`);
* `done` is written by the completion callback, which librbd runs on its own
  thread; the value the main thread sees at its `i`-th test of `done` is
  `polls i`, and the `for (;;)` loop takes a bound on the number of tests
  (`fuel`), reporting whether it has left the loop within that bound.
-/

namespace Rados

/-- Opaque library handles (`rados_t`, `rados_ioctx_t`, `rbd_image_t`,
`rbd_completion_t`). -/
abbrev Handle := Nat

/-- Addresses returned by `malloc`. -/
abbrev Ptr := Nat

/-- Functions of `rados.c` that are passed to the library as callbacks. -/
inductive Callback where
  | app_finish_aiocb
  deriving DecidableEq, Repr

/-- Calls into librados / librbd, with the arguments the program passes.
Out-pointers (`&cluster`, `&io_ctx`, `&image`, `&comp`) are not arguments here:
the handle stored through them is `Lib.out` of the call. -/
inductive Call where
  | rados_create (id : String)
  | rados_conf_read_file (cluster : Handle) (path : String)
  | rados_conf_set (cluster : Handle) (option value : String)
  | rados_connect (cluster : Handle)
  | rados_ioctx_create (cluster : Handle) (pool : String)
  | rbd_open (io : Handle) (name : String) (snap_name : Option String)
  | rados_ioctx_destroy (io : Handle)
  | rados_shutdown (cluster : Handle)
  | rbd_aio_create_completion (cb_arg : Ptr) (cb : Callback)
  | rbd_aio_read (image : Handle) (off len : Nat) (buf : Ptr) (c : Handle)
  | rbd_aio_get_return_value (c : Handle)
  | rbd_aio_release (c : Handle)
  deriving DecidableEq, Repr

/-- Observable events of a run, in program order. -/
inductive Event where
  | call (c : Call)
  | malloc (size : Nat) (p : Ptr)
  | usleep (usec : Nat)
  | read_done (v : Int)
  | stderr (s : String)
  | stdout (s : String)
  deriving DecidableEq, Repr

/-- The external world: results of library calls and of libc helpers. -/
structure Lib where
  /-- The `int` a library call returns. -/
  ret : Call → Int
  /-- The handle a library call stores through its out-pointer. -/
  out : Call → Handle
  /-- The address `malloc(size)` returns. -/
  malloc : Nat → Ptr
  /-- The text of `strerror(errnum)`. -/
  strerror : Int → String
  /-- The C string found at an address when it is printed with `%s`. -/
  cstr : Ptr → String

/-- The file-scope variables of `rados.c` (lines 6-15) and the trace so far. -/
structure State where
  cluster : Handle
  io_ctx : Handle
  poolname : String
  image : Handle
  imagename : String
  monitor : String
  username : String
  password : String
  done : Int
  trace : List Event

/-- Static storage is zero-initialised; nothing has happened yet. -/
def State.init : State :=
  { cluster := 0, io_ctx := 0, poolname := "", image := 0, imagename := "",
    monitor := "", username := "", password := "", done := 0, trace := [] }

/-- Append one event to the trace. -/
def State.emit (s : State) (e : Event) : State :=
  { s with trace := s.trace ++ [e] }

/-- The line of `=` signs framing the buffer dump. -/
def rule : String := "========================================\n"

/-- The value a 32-bit `int` holds after an integer is stored in it: the
value itself when it is in `[-2^31, 2^31)`, reduced modulo `2^32` into that
range otherwise. -/
def to_int (v : Int) : Int := (v + 2147483648) % 4294967296 - 2147483648

/-- `app_finish_aiocb` (lines 17-33): the completion callback.
`rbd_aio_get_return_value` returns an `ssize_t`; line 20 stores it in
`int ret`, and line 23 negates that `int`. -/
def app_finish_aiocb (lib : Lib) (c : Handle) (buf : Ptr) (s : State) : State :=
  let ret := to_int (lib.ret (.rbd_aio_get_return_value c))
  let s := s.emit (.call (.rbd_aio_get_return_value c))
  let s :=
    if ret < 0 then
      s.emit (.stderr ("error reading image:" ++ s.imagename ++ ", "
        ++ lib.strerror (to_int (-ret))))
    else s
  let s := s.emit (.stdout ("buffer read:\n" ++ rule ++ lib.cstr buf ++ "\n" ++ rule))
  let s := s.emit (.call (.rbd_aio_release c))
  { s with done := 1 }

/-- The `for (;;)` loop of `app_run` (lines 63-69).  `i` is the number of tests
of `done` made so far; the Boolean says whether the loop was left (`break`)
within `fuel` tests. -/
def wait_loop (polls : Nat → Int) : Nat → Nat → State → Bool × State
  | 0, _, s => (false, s)
  | fuel + 1, i, s =>
    let s := s.emit (.read_done (polls i))
    if polls i ≠ 0 then (true, s)
    else wait_loop polls fuel (i + 1) (s.emit (.usleep 100000))

/-- `app_run` (lines 35-70).  The Boolean says whether the function returned. -/
def app_run (lib : Lib) (polls : Nat → Int) (fuel : Nat) (s : State) : Bool × State :=
  let buf := lib.malloc 128
  let s := s.emit (.malloc 128 buf)
  let mk := Call.rbd_aio_create_completion buf .app_finish_aiocb
  let ret := lib.ret mk
  let comp := lib.out mk
  let s := s.emit (.call mk)
  if ret < 0 then
    (true, s.emit (.stderr ("could not create aio completion: " ++ lib.strerror (-ret) ++ "\n")))
  else
    let rd := Call.rbd_aio_read s.image 0 128 buf comp
    let ret := lib.ret rd
    let s := s.emit (.call rd)
    if ret < 0 then
      (true, s.emit (.stderr ("error reading image:" ++ s.imagename ++ ", "
        ++ lib.strerror (-ret) ++ "\n")))
    else wait_loop polls fuel 0 s

/-- `conf_set` (lines 72-80). -/
def conf_set (lib : Lib) (key value : String) (s : State) : Int × State :=
  let r := lib.ret (.rados_conf_set s.cluster key value)
  let s := s.emit (.call (.rados_conf_set s.cluster key value))
  let s := if r < 0 then s.emit (.stderr ("invalid conf option: " ++ key ++ "\n")) else s
  (r, s)

/-- Label `failed_create` of `app_rbd_open` (lines 161-162). -/
def failed_create (ret : Int) (s : State) : Int × State := (ret, s)

/-- Label `failed_shutdown` of `app_rbd_open` (lines 159-160), falling through. -/
def failed_shutdown (ret : Int) (s : State) : Int × State :=
  failed_create ret (s.emit (.call (.rados_shutdown s.cluster)))

/-- Label `failed_open` of `app_rbd_open` (lines 157-158), falling through. -/
def failed_open (ret : Int) (s : State) : Int × State :=
  failed_shutdown ret (s.emit (.call (.rados_ioctx_destroy s.io_ctx)))

/-- The banner `app_rbd_open` prints first (lines 86-93). -/
def banner (s : State) : String :=
  "open rados as following setting:\n"
    ++ "poolname: " ++ s.poolname ++ "\n"
    ++ "imagename: " ++ s.imagename ++ "\n"
    ++ "username: " ++ s.username ++ "\n"
    ++ "password: " ++ s.password ++ "\n"
    ++ "monitor: " ++ s.monitor ++ "\n"

/-- `app_rbd_open` (lines 82-163).  `ret` is the local variable of that name:
it is assigned by the direct library calls only, not by the `conf_set` tests. -/
def app_rbd_open (lib : Lib) (s : State) : Int × State :=
  let s := s.emit (.stdout (banner s))
  let c := Call.rados_create s.username
  let ret := lib.ret c
  let s := { s with cluster := lib.out c }.emit (.call c)
  if ret < 0 then
    failed_create ret (s.emit (.stderr ("cannot create a cluster handle: "
      ++ lib.strerror (-ret) ++ "\n")))
  else
  let c := Call.rados_conf_read_file s.cluster "/etc/ceph/ceph.conf"
  let ret := lib.ret c
  let s := s.emit (.call c)
  if ret < 0 then
    failed_shutdown ret (s.emit (.stderr ("cannot read config file: "
      ++ lib.strerror (-ret) ++ "\n")))
  else
  let (r, s) := conf_set lib "key" s.password s
  if r < 0 then failed_shutdown ret s else
  let (r, s) := conf_set lib "auth_supported" "cephx" s
  if r < 0 then failed_shutdown ret s else
  let (r, s) := conf_set lib "mon_host" s.monitor s
  if r < 0 then failed_shutdown ret s else
  let c := Call.rados_connect s.cluster
  let ret := lib.ret c
  let s := s.emit (.call c)
  if ret < 0 then
    failed_shutdown ret (s.emit (.stderr ("cannot connect to cluster: "
      ++ lib.strerror (-ret) ++ "\n")))
  else
  let c := Call.rados_ioctx_create s.cluster s.poolname
  let ret := lib.ret c
  let s := { s with io_ctx := lib.out c }.emit (.call c)
  if ret < 0 then
    failed_shutdown ret (s.emit (.stderr ("cannot open rados pool " ++ s.poolname ++ ": "
      ++ lib.strerror (-ret) ++ "\n")))
  else
  let c := Call.rbd_open s.io_ctx s.imagename none
  let ret := lib.ret c
  let s := { s with image := lib.out c }.emit (.call c)
  if ret < 0 then
    failed_open ret (s.emit (.stderr ("error reading header from image "
      ++ s.imagename ++ "\n")))
  else (0, s)

/-- `app_rbd_close` (lines 165-169). -/
def app_rbd_close (s : State) : State :=
  let s := s.emit (.call (.rados_ioctx_destroy s.io_ctx))
  s.emit (.call (.rados_shutdown s.cluster))

/-- Outcome of running `main`: `ret = none` when `main` is still in the wait
loop after the allowed number of tests of `done`. -/
structure Run where
  ret : Option Int
  st : State

/-- The usage line (lines 174-176). -/
def usage (argv0 : String) : String :=
  "usage: " ++ argv0 ++ " poolname imagename username password monitor\n"

/-- The five assignments of `main` (lines 180-184). -/
def set_globals (argv : Nat → String) (s : State) : State :=
  { s with poolname := argv 1, imagename := argv 2, username := argv 3,
           password := argv 4, monitor := argv 5 }

/-- `main` (lines 171-192), started in state `s`. -/
def main_from (lib : Lib) (polls : Nat → Int) (fuel : Nat) (argc : Int) (argv : Nat → String)
    (s : State) : Run :=
  if argc ≠ 6 then
    { ret := some (-1), st := s.emit (.stderr (usage (argv 0))) }
  else
    let s := set_globals argv s
    let (r, s) := app_rbd_open lib s
    if r = 0 then
      let (returned, s) := app_run lib polls fuel s
      if returned then { ret := some 0, st := app_rbd_close s }
      else { ret := none, st := s }
    else { ret := some 0, st := s }

/-- The program: `main` run from the initial state. -/
def main (lib : Lib) (polls : Nat → Int) (fuel : Nat) (argc : Int) (argv : Nat → String) : Run :=
  main_from lib polls fuel argc argv State.init

/-! ## Reading traces -/

/-- The library call an event records, if it is one. -/
def Event.call? : Event → Option Call
  | .call c => some c
  | _ => none

/-- The trace of library calls: the calls into librados / librbd, in order. -/
def calls (t : List Event) : List Call := t.filterMap Event.call?

/-- What is written to stderr, in order. -/
def stderr_of (t : List Event) : List String :=
  t.filterMap (fun e => match e with | .stderr m => some m | _ => none)

/-- The events of `k` rounds of the wait loop that all saw `done == 0`:
a test of `done` followed by one `usleep(100000)`, `k` times. -/
def waiting : Nat → List Event
  | 0 => []
  | k + 1 => .read_done 0 :: .usleep 100000 :: waiting k

/-- What is written to stdout, in order. -/
def stdout_of (t : List Event) : List String :=
  t.filterMap (fun e => match e with | .stdout m => some m | _ => none)

/-! ## The calls `app_rbd_open` and `app_run` make, as the source writes them -/

/-- The handle `rados_create` stores in `cluster` (line 99). -/
def cluster_of (lib : Lib) (s : State) : Handle := lib.out (.rados_create s.username)

/-- Line 99: `rados_create(&cluster, username)`. -/
def call_create (s : State) : Call := .rados_create s.username

/-- Line 106: `rados_conf_read_file(cluster, "/etc/ceph/ceph.conf")`. -/
def call_read_file (lib : Lib) (s : State) : Call :=
  .rados_conf_read_file (cluster_of lib s) "/etc/ceph/ceph.conf"

/-- Line 117: `conf_set("key", password)`. -/
def call_set_key (lib : Lib) (s : State) : Call :=
  .rados_conf_set (cluster_of lib s) "key" s.password

/-- Line 120: `conf_set("auth_supported", "cephx")`. -/
def call_set_auth (lib : Lib) (s : State) : Call :=
  .rados_conf_set (cluster_of lib s) "auth_supported" "cephx"

/-- Line 123: `conf_set("mon_host", monitor)`. -/
def call_set_mon (lib : Lib) (s : State) : Call :=
  .rados_conf_set (cluster_of lib s) "mon_host" s.monitor

/-- Line 128: `rados_connect(cluster)`. -/
def call_connect (lib : Lib) (s : State) : Call := .rados_connect (cluster_of lib s)

/-- Line 139: `rados_ioctx_create(cluster, poolname, &io_ctx)`. -/
def call_ioctx (lib : Lib) (s : State) : Call :=
  .rados_ioctx_create (cluster_of lib s) s.poolname

/-- The handle `rados_ioctx_create` stores in `io_ctx` (line 139). -/
def io_of (lib : Lib) (s : State) : Handle := lib.out (call_ioctx lib s)

/-- Line 150: `rbd_open(io_ctx, imagename, &image, NULL)`. -/
def call_open (lib : Lib) (s : State) : Call := .rbd_open (io_of lib s) s.imagename none

/-- The handle `rbd_open` stores in `image` (line 150). -/
def image_of (lib : Lib) (s : State) : Handle := lib.out (call_open lib s)

/-- The setup calls of `app_rbd_open` in source order (lines 99-150). -/
def setup_seq (lib : Lib) (s : State) : List Call :=
  [call_create s, call_read_file lib s, call_set_key lib s, call_set_auth lib s,
   call_set_mon lib s, call_connect lib s, call_ioctx lib s, call_open lib s]

/-- Line 47: `rbd_aio_create_completion(buf, app_finish_aiocb, &comp)` with
`buf = malloc(128)`. -/
def call_completion (lib : Lib) : Call :=
  .rbd_aio_create_completion (lib.malloc 128) .app_finish_aiocb

/-- Line 58: `rbd_aio_read(image, 0, 128, buf, comp)`. -/
def call_read (lib : Lib) (s : State) : Call :=
  .rbd_aio_read s.image 0 128 (lib.malloc 128) (lib.out (call_completion lib))

/-- Setup calls: the six library functions `app_rbd_open` uses to get to an
open image. -/
def Call.is_setup : Call → Bool
  | .rados_create _ => true
  | .rados_conf_read_file _ _ => true
  | .rados_conf_set _ _ _ => true
  | .rados_connect _ => true
  | .rados_ioctx_create _ _ => true
  | .rbd_open _ _ _ => true
  | _ => false

/-- The setup calls of a trace, in order. -/
def setup_calls (t : List Event) : List Call := (calls t).filter Call.is_setup

/-- The part of a sequence of calls up to and including the first one that
returns a negative value; the whole sequence when none does. -/
def upto_first_failure (lib : Lib) : List Call → List Call
  | [] => []
  | c :: cs => if lib.ret c < 0 then [c] else c :: upto_first_failure lib cs

/-- Is this call an `rbd_aio_read`? -/
def Call.is_read : Call → Bool
  | .rbd_aio_read _ _ _ _ _ => true
  | _ => false

/-- Is this call a `rados_shutdown`? -/
def Call.is_shutdown : Call → Bool
  | .rados_shutdown _ => true
  | _ => false

/-- Is this call a `rados_ioctx_destroy`? -/
def Call.is_ioctx_destroy : Call → Bool
  | .rados_ioctx_destroy _ => true
  | _ => false

/-- Is this call a `rados_ioctx_create`? -/
def Call.is_ioctx_create : Call → Bool
  | .rados_ioctx_create _ _ => true
  | _ => false

/-- The library functions by name. -/
inductive Fn where
  | rados_create | rados_conf_read_file | rados_conf_set | rados_connect
  | rados_ioctx_create | rbd_open | rados_ioctx_destroy | rados_shutdown
  | rbd_aio_create_completion | rbd_aio_read | rbd_aio_get_return_value | rbd_aio_release
  deriving DecidableEq, Repr

/-- The library function a call is a call of. -/
def Call.fn : Call → Fn
  | .rados_create _ => .rados_create
  | .rados_conf_read_file _ _ => .rados_conf_read_file
  | .rados_conf_set _ _ _ => .rados_conf_set
  | .rados_connect _ => .rados_connect
  | .rados_ioctx_create _ _ => .rados_ioctx_create
  | .rbd_open _ _ _ => .rbd_open
  | .rados_ioctx_destroy _ => .rados_ioctx_destroy
  | .rados_shutdown _ => .rados_shutdown
  | .rbd_aio_create_completion _ _ => .rbd_aio_create_completion
  | .rbd_aio_read _ _ _ _ _ => .rbd_aio_read
  | .rbd_aio_get_return_value _ => .rbd_aio_get_return_value
  | .rbd_aio_release _ => .rbd_aio_release

/-- The five-step setup as the overview words it: create handle, read config,
set options, connect, open image. -/
def five_step_setup : List Fn :=
  [.rados_create, .rados_conf_read_file, .rados_conf_set, .rados_connect, .rbd_open]

/-- The argument positions the usage line names
(`poolname imagename username password monitor`), per call. -/
def usage_args (argv : Nat → String) : Call → Prop
  | .rados_create id => id = argv 3
  | .rados_conf_read_file _ path => path = "/etc/ceph/ceph.conf"
  | .rados_conf_set _ k v =>
      (k = "key" ∧ v = argv 4) ∨ (k = "auth_supported" ∧ v = "cephx")
        ∨ (k = "mon_host" ∧ v = argv 5)
  | .rados_ioctx_create _ pool => pool = argv 1
  | .rbd_open _ name snap => name = argv 2 ∧ snap = none
  | _ => True

/-- The option/value pairs of the `rados_conf_set` calls among `cs`, in order. -/
def conf_pairs (cs : List Call) : List (String × String) :=
  cs.filterMap (fun c => match c with | .rados_conf_set _ k v => some (k, v) | _ => none)

/-! ## Concrete inputs -/

/-- A library in which every call succeeds with 0. -/
def lib_ok : Lib :=
  { ret := fun _ => 0,
    out := fun c => match c with
      | .rados_create _ => 11
      | .rados_ioctx_create _ _ => 22
      | .rbd_open _ _ _ => 33
      | .rbd_aio_create_completion _ _ => 44
      | _ => 0,
    malloc := fun _ => 4096,
    strerror := fun _ => "E",
    cstr := fun _ => "data" }

/-- As `lib_ok`, but `rados_conf_set` rejects the option `key` with -22. -/
def lib_bad_key : Lib :=
  { lib_ok with ret := fun c => match c with
      | .rados_conf_set _ "key" _ => -22
      | _ => 0 }

/-- As `lib_ok`, but `rbd_open` fails with -2. -/
def lib_no_image : Lib :=
  { lib_ok with ret := fun c => match c with
      | .rbd_open _ _ _ => -2
      | _ => 0 }

/-- As `lib_ok`, but `rbd_aio_create_completion` fails with -12. -/
def lib_no_completion : Lib :=
  { lib_ok with ret := fun c => match c with
      | .rbd_aio_create_completion _ _ => -12
      | _ => 0 }

/-- As `lib_ok`, but `rbd_aio_read` fails with -5. -/
def lib_bad_read : Lib :=
  { lib_ok with ret := fun c => match c with
      | .rbd_aio_read _ _ _ _ _ => -5
      | _ => 0 }

/-- As `lib_ok`, but the completed read reports -5. -/
def lib_read_error : Lib :=
  { lib_ok with ret := fun c => match c with
      | .rbd_aio_get_return_value _ => -5
      | _ => 0 }

/-- As `lib_ok`, but the completed read reports 4294967291 (`2^32 - 5`). -/
def lib_wide_result : Lib :=
  { lib_ok with ret := fun c => match c with
      | .rbd_aio_get_return_value _ => 4294967291
      | _ => 0 }

/-- As `lib_ok`, but `malloc` returns NULL. -/
def lib_null_malloc : Lib :=
  { lib_ok with malloc := fun _ => 0 }

/-- A command line with the five arguments of the usage line. -/
def argv6 : Nat → String :=
  fun i => ["rados", "pool", "img", "user", "pw", "mon"].getD i ""

/-- A run in which `done` is first seen set at test number `k`. -/
def done_at (k : Nat) : Nat → Int := fun i => if i < k then 0 else 1

/-- A run in which `done` is never seen set. -/
def never_done : Nat → Int := fun _ => 0

/-! ## Lemmas about the wait loop -/

theorem calls_append (a b : List Event) : calls (a ++ b) = calls a ++ calls b := by
  simp [calls]

theorem calls_nil : calls [] = [] := rfl

theorem calls_cons_call (c : Call) (t : List Event) : calls (.call c :: t) = c :: calls t := rfl

theorem calls_cons_malloc (n : Nat) (q : Ptr) (t : List Event) :
    calls (.malloc n q :: t) = calls t := rfl

theorem calls_cons_usleep (n : Nat) (t : List Event) : calls (.usleep n :: t) = calls t := rfl

theorem calls_cons_read_done (v : Int) (t : List Event) :
    calls (.read_done v :: t) = calls t := rfl

theorem calls_cons_stderr (m : String) (t : List Event) : calls (.stderr m :: t) = calls t := rfl

theorem calls_cons_stdout (m : String) (t : List Event) : calls (.stdout m :: t) = calls t := rfl

theorem calls_waiting (k : Nat) : calls (waiting k) = [] := by
  induction k with
  | zero => rfl
  | succ k ih => simpa [waiting, calls, Event.call?] using ih

/-- The loop is left at test `k` when that is the first test that sees `done`
set and the bound allows `k + 1` tests. -/
theorem wait_loop_break (polls : Nat → Int) (k : Nat) :
    ∀ (fuel i : Nat) (s : State), k < fuel → (∀ j, j < k → polls (i + j) = 0) →
      polls (i + k) ≠ 0 →
      wait_loop polls fuel i s
        = (true, { s with trace := s.trace ++ (waiting k ++ [.read_done (polls (i + k))]) }) := by
  induction k with
  | zero =>
    intro fuel i s hf _ hk
    obtain ⟨f, rfl⟩ : ∃ f, fuel = f + 1 := ⟨fuel - 1, by omega⟩
    simp only [Nat.add_zero] at hk
    simp [wait_loop, hk, State.emit, waiting]
  | succ k ih =>
    intro fuel i s hf h0 hk
    obtain ⟨f, rfl⟩ : ∃ f, fuel = f + 1 := ⟨fuel - 1, by omega⟩
    have hi : polls i = 0 := by simpa using h0 0 (by omega)
    have h0' : ∀ j, j < k → polls (i + 1 + j) = 0 := by
      intro j hj
      have := h0 (j + 1) (by omega)
      rwa [show i + (j + 1) = i + 1 + j by omega] at this
    have hk' : polls (i + 1 + k) ≠ 0 := by
      rwa [show i + (k + 1) = i + 1 + k by omega] at hk
    rw [wait_loop]
    simp only [hi, ne_eq, not_true_eq_false, if_false]
    rw [ih f (i + 1) _ (by omega) h0' hk']
    simp [State.emit, waiting, show i + (k + 1) = i + 1 + k by omega]

/-- While every test so far saw `done == 0` the loop is not left. -/
theorem wait_loop_spin (polls : Nat → Int) :
    ∀ (fuel i : Nat) (s : State), (∀ j, j < fuel → polls (i + j) = 0) →
      wait_loop polls fuel i s = (false, { s with trace := s.trace ++ waiting fuel }) := by
  intro fuel
  induction fuel with
  | zero => intro i s _; simp [wait_loop, waiting]
  | succ f ih =>
    intro i s h0
    have hi : polls i = 0 := by simpa using h0 0 (by omega)
    have h0' : ∀ j, j < f → polls (i + 1 + j) = 0 := by
      intro j hj
      have := h0 (j + 1) (by omega)
      rwa [show i + (j + 1) = i + 1 + j by omega] at this
    rw [wait_loop]
    simp only [hi, ne_eq, not_true_eq_false, if_false]
    rw [ih (i + 1) _ h0']
    simp [State.emit, waiting]

/-- Every run of the loop is one of the two above: there is a first test
`k < fuel` that sees `done` set, or all `fuel` tests saw `done == 0`. -/
theorem first_poll (polls : Nat → Int) (fuel : Nat) :
    (∃ k, k < fuel ∧ (∀ j, j < k → polls j = 0) ∧ polls k ≠ 0)
      ∨ (∀ j, j < fuel → polls j = 0) := by
  induction fuel with
  | zero => right; intro j hj; omega
  | succ f ih =>
    rcases ih with ⟨k, hk, h0, hne⟩ | h
    · exact Or.inl ⟨k, by omega, h0, hne⟩
    · by_cases hf : polls f = 0
      · right
        intro j hj
        rcases Nat.lt_succ_iff_lt_or_eq.mp hj with h1 | h1
        · exact h j h1
        · exact h1 ▸ hf
      · exact Or.inl ⟨f, by omega, h, hf⟩

/-- The wait loop is left unless all the tests allowed saw `done == 0`. -/
theorem wait_loop_left (polls : Nat → Int) (fuel : Nat) (s : State) :
    (wait_loop polls fuel 0 s).1 = true ∨ ∀ j, j < fuel → polls j = 0 := by
  rcases first_poll polls fuel with ⟨k, hk, h0, hne⟩ | h
  · left
    rw [wait_loop_break polls k fuel 0 s hk (by simpa using h0) (by simpa using hne)]
  · exact Or.inr h

/-- `app_run` returns unless it is in the wait loop and all the tests allowed
saw `done == 0`. -/
theorem app_run_returned (lib : Lib) (polls : Nat → Int) (fuel : Nat) (s : State) :
    (app_run lib polls fuel s).1 = true ∨ ∀ j, j < fuel → polls j = 0 := by
  unfold app_run
  simp only
  split_ifs
  · exact Or.inl rfl
  · exact Or.inl rfl
  · exact wait_loop_left polls fuel _

/-! ## The paths through `app_rbd_open` and `app_run` -/

/-- The nine paths through `app_rbd_open`, by the first setup call that fails:
the value returned, the globals written and the events added on each. -/
theorem app_rbd_open_cases (lib : Lib) (s : State) :
    (lib.ret (call_create s) < 0 ∧
      app_rbd_open lib s = (lib.ret (call_create s),
        { s with cluster := cluster_of lib s,
                 trace := s.trace ++ [.stdout (banner s), .call (call_create s),
                   .stderr ("cannot create a cluster handle: "
                     ++ lib.strerror (-lib.ret (call_create s)) ++ "\n")] }))
    ∨ (0 ≤ lib.ret (call_create s) ∧ lib.ret (call_read_file lib s) < 0 ∧
      app_rbd_open lib s = (lib.ret (call_read_file lib s),
        { s with cluster := cluster_of lib s,
                 trace := s.trace ++ [.stdout (banner s), .call (call_create s),
                   .call (call_read_file lib s),
                   .stderr ("cannot read config file: "
                     ++ lib.strerror (-lib.ret (call_read_file lib s)) ++ "\n"),
                   .call (.rados_shutdown (cluster_of lib s))] }))
    ∨ (0 ≤ lib.ret (call_create s) ∧ 0 ≤ lib.ret (call_read_file lib s) ∧
       lib.ret (call_set_key lib s) < 0 ∧
      app_rbd_open lib s = (lib.ret (call_read_file lib s),
        { s with cluster := cluster_of lib s,
                 trace := s.trace ++ [.stdout (banner s), .call (call_create s),
                   .call (call_read_file lib s), .call (call_set_key lib s),
                   .stderr "invalid conf option: key\n",
                   .call (.rados_shutdown (cluster_of lib s))] }))
    ∨ (0 ≤ lib.ret (call_create s) ∧ 0 ≤ lib.ret (call_read_file lib s) ∧
       0 ≤ lib.ret (call_set_key lib s) ∧ lib.ret (call_set_auth lib s) < 0 ∧
      app_rbd_open lib s = (lib.ret (call_read_file lib s),
        { s with cluster := cluster_of lib s,
                 trace := s.trace ++ [.stdout (banner s), .call (call_create s),
                   .call (call_read_file lib s), .call (call_set_key lib s),
                   .call (call_set_auth lib s),
                   .stderr "invalid conf option: auth_supported\n",
                   .call (.rados_shutdown (cluster_of lib s))] }))
    ∨ (0 ≤ lib.ret (call_create s) ∧ 0 ≤ lib.ret (call_read_file lib s) ∧
       0 ≤ lib.ret (call_set_key lib s) ∧ 0 ≤ lib.ret (call_set_auth lib s) ∧
       lib.ret (call_set_mon lib s) < 0 ∧
      app_rbd_open lib s = (lib.ret (call_read_file lib s),
        { s with cluster := cluster_of lib s,
                 trace := s.trace ++ [.stdout (banner s), .call (call_create s),
                   .call (call_read_file lib s), .call (call_set_key lib s),
                   .call (call_set_auth lib s), .call (call_set_mon lib s),
                   .stderr "invalid conf option: mon_host\n",
                   .call (.rados_shutdown (cluster_of lib s))] }))
    ∨ (0 ≤ lib.ret (call_create s) ∧ 0 ≤ lib.ret (call_read_file lib s) ∧
       0 ≤ lib.ret (call_set_key lib s) ∧ 0 ≤ lib.ret (call_set_auth lib s) ∧
       0 ≤ lib.ret (call_set_mon lib s) ∧ lib.ret (call_connect lib s) < 0 ∧
      app_rbd_open lib s = (lib.ret (call_connect lib s),
        { s with cluster := cluster_of lib s,
                 trace := s.trace ++ [.stdout (banner s), .call (call_create s),
                   .call (call_read_file lib s), .call (call_set_key lib s),
                   .call (call_set_auth lib s), .call (call_set_mon lib s),
                   .call (call_connect lib s),
                   .stderr ("cannot connect to cluster: "
                     ++ lib.strerror (-lib.ret (call_connect lib s)) ++ "\n"),
                   .call (.rados_shutdown (cluster_of lib s))] }))
    ∨ (0 ≤ lib.ret (call_create s) ∧ 0 ≤ lib.ret (call_read_file lib s) ∧
       0 ≤ lib.ret (call_set_key lib s) ∧ 0 ≤ lib.ret (call_set_auth lib s) ∧
       0 ≤ lib.ret (call_set_mon lib s) ∧ 0 ≤ lib.ret (call_connect lib s) ∧
       lib.ret (call_ioctx lib s) < 0 ∧
      app_rbd_open lib s = (lib.ret (call_ioctx lib s),
        { s with cluster := cluster_of lib s, io_ctx := io_of lib s,
                 trace := s.trace ++ [.stdout (banner s), .call (call_create s),
                   .call (call_read_file lib s), .call (call_set_key lib s),
                   .call (call_set_auth lib s), .call (call_set_mon lib s),
                   .call (call_connect lib s), .call (call_ioctx lib s),
                   .stderr ("cannot open rados pool " ++ s.poolname ++ ": "
                     ++ lib.strerror (-lib.ret (call_ioctx lib s)) ++ "\n"),
                   .call (.rados_shutdown (cluster_of lib s))] }))
    ∨ (0 ≤ lib.ret (call_create s) ∧ 0 ≤ lib.ret (call_read_file lib s) ∧
       0 ≤ lib.ret (call_set_key lib s) ∧ 0 ≤ lib.ret (call_set_auth lib s) ∧
       0 ≤ lib.ret (call_set_mon lib s) ∧ 0 ≤ lib.ret (call_connect lib s) ∧
       0 ≤ lib.ret (call_ioctx lib s) ∧ lib.ret (call_open lib s) < 0 ∧
      app_rbd_open lib s = (lib.ret (call_open lib s),
        { s with cluster := cluster_of lib s, io_ctx := io_of lib s, image := image_of lib s,
                 trace := s.trace ++ [.stdout (banner s), .call (call_create s),
                   .call (call_read_file lib s), .call (call_set_key lib s),
                   .call (call_set_auth lib s), .call (call_set_mon lib s),
                   .call (call_connect lib s), .call (call_ioctx lib s),
                   .call (call_open lib s),
                   .stderr ("error reading header from image " ++ s.imagename ++ "\n"),
                   .call (.rados_ioctx_destroy (io_of lib s)),
                   .call (.rados_shutdown (cluster_of lib s))] }))
    ∨ (0 ≤ lib.ret (call_create s) ∧ 0 ≤ lib.ret (call_read_file lib s) ∧
       0 ≤ lib.ret (call_set_key lib s) ∧ 0 ≤ lib.ret (call_set_auth lib s) ∧
       0 ≤ lib.ret (call_set_mon lib s) ∧ 0 ≤ lib.ret (call_connect lib s) ∧
       0 ≤ lib.ret (call_ioctx lib s) ∧ 0 ≤ lib.ret (call_open lib s) ∧
      app_rbd_open lib s = (0,
        { s with cluster := cluster_of lib s, io_ctx := io_of lib s, image := image_of lib s,
                 trace := s.trace ++ [.stdout (banner s), .call (call_create s),
                   .call (call_read_file lib s), .call (call_set_key lib s),
                   .call (call_set_auth lib s), .call (call_set_mon lib s),
                   .call (call_connect lib s), .call (call_ioctx lib s),
                   .call (call_open lib s)] })) := by
  by_cases h1 : lib.ret (call_create s) < 0
  · refine Or.inl ⟨h1, ?_⟩
    simp only [call_create] at h1
    simp [app_rbd_open, failed_create, State.emit, call_create, cluster_of, h1]
  have g1 := not_lt.mp h1
  refine Or.inr ?_
  by_cases h2 : lib.ret (call_read_file lib s) < 0
  · refine Or.inl ⟨g1, h2, ?_⟩
    simp only [call_create, call_read_file, cluster_of] at h1 h2
    simp [app_rbd_open, failed_create, failed_shutdown, State.emit, call_create, call_read_file,
      cluster_of, h1, h2]
  have g2 := not_lt.mp h2
  refine Or.inr ?_
  by_cases h3 : lib.ret (call_set_key lib s) < 0
  · refine Or.inl ⟨g1, g2, h3, ?_⟩
    simp only [call_create, call_read_file, call_set_key, cluster_of] at h1 h2 h3
    simp [app_rbd_open, conf_set, failed_create, failed_shutdown, State.emit, call_create,
      call_read_file, call_set_key, cluster_of, h1, h2, h3]
  have g3 := not_lt.mp h3
  refine Or.inr ?_
  by_cases h4 : lib.ret (call_set_auth lib s) < 0
  · refine Or.inl ⟨g1, g2, g3, h4, ?_⟩
    simp only [call_create, call_read_file, call_set_key, call_set_auth, cluster_of]
      at h1 h2 h3 h4
    simp [app_rbd_open, conf_set, failed_create, failed_shutdown, State.emit, call_create,
      call_read_file, call_set_key, call_set_auth, cluster_of, h1, h2, h3, h4]
  have g4 := not_lt.mp h4
  refine Or.inr ?_
  by_cases h5 : lib.ret (call_set_mon lib s) < 0
  · refine Or.inl ⟨g1, g2, g3, g4, h5, ?_⟩
    simp only [call_create, call_read_file, call_set_key, call_set_auth, call_set_mon,
      cluster_of] at h1 h2 h3 h4 h5
    simp [app_rbd_open, conf_set, failed_create, failed_shutdown, State.emit, call_create,
      call_read_file, call_set_key, call_set_auth, call_set_mon, cluster_of, h1, h2, h3, h4, h5]
  have g5 := not_lt.mp h5
  refine Or.inr ?_
  by_cases h6 : lib.ret (call_connect lib s) < 0
  · refine Or.inl ⟨g1, g2, g3, g4, g5, h6, ?_⟩
    simp only [call_create, call_read_file, call_set_key, call_set_auth, call_set_mon,
      call_connect, cluster_of] at h1 h2 h3 h4 h5 h6
    simp [app_rbd_open, conf_set, failed_create, failed_shutdown, State.emit, call_create,
      call_read_file, call_set_key, call_set_auth, call_set_mon, call_connect, cluster_of,
      h1, h2, h3, h4, h5, h6]
  have g6 := not_lt.mp h6
  refine Or.inr ?_
  by_cases h7 : lib.ret (call_ioctx lib s) < 0
  · refine Or.inl ⟨g1, g2, g3, g4, g5, g6, h7, ?_⟩
    simp only [call_create, call_read_file, call_set_key, call_set_auth, call_set_mon,
      call_connect, call_ioctx, cluster_of] at h1 h2 h3 h4 h5 h6 h7
    simp [app_rbd_open, conf_set, failed_create, failed_shutdown, State.emit, call_create,
      call_read_file, call_set_key, call_set_auth, call_set_mon, call_connect, call_ioctx,
      cluster_of, io_of, h1, h2, h3, h4, h5, h6, h7]
  have g7 := not_lt.mp h7
  refine Or.inr ?_
  by_cases h8 : lib.ret (call_open lib s) < 0
  · refine Or.inl ⟨g1, g2, g3, g4, g5, g6, g7, h8, ?_⟩
    simp only [call_create, call_read_file, call_set_key, call_set_auth, call_set_mon,
      call_connect, call_ioctx, call_open, cluster_of, io_of] at h1 h2 h3 h4 h5 h6 h7 h8
    simp [app_rbd_open, conf_set, failed_create, failed_shutdown, failed_open, State.emit,
      call_create, call_read_file, call_set_key, call_set_auth, call_set_mon, call_connect,
      call_ioctx, call_open, cluster_of, io_of, image_of, h1, h2, h3, h4, h5, h6, h7, h8]
  have g8 := not_lt.mp h8
  refine Or.inr ⟨g1, g2, g3, g4, g5, g6, g7, g8, ?_⟩
  simp only [call_create, call_read_file, call_set_key, call_set_auth, call_set_mon,
    call_connect, call_ioctx, call_open, cluster_of, io_of] at h1 h2 h3 h4 h5 h6 h7 h8
  simp [app_rbd_open, conf_set, failed_create, failed_shutdown, failed_open, State.emit,
    call_create, call_read_file, call_set_key, call_set_auth, call_set_mon, call_connect,
    call_ioctx, call_open, cluster_of, io_of, image_of, h1, h2, h3, h4, h5, h6, h7, h8]

/-- Once the completion is created and the read accepted, `app_run` is the
wait loop. -/
theorem app_run_submitted (lib : Lib) (polls : Nat → Int) (fuel : Nat) (s : State)
    (hmk : 0 ≤ lib.ret (call_completion lib)) (hrd : 0 ≤ lib.ret (call_read lib s)) :
    app_run lib polls fuel s = wait_loop polls fuel 0
      { s with trace := s.trace ++ [.malloc 128 (lib.malloc 128), .call (call_completion lib),
          .call (call_read lib s)] } := by
  simp only [call_completion, call_read, ← not_lt] at hmk hrd
  simp [app_run, State.emit, call_completion, call_read, hmk, hrd]

/-- The paths through `app_run`: no completion, read refused, loop left at the
first test `k` that sees `done` set, or still in the loop after `fuel` tests. -/
theorem app_run_cases (lib : Lib) (polls : Nat → Int) (fuel : Nat) (s : State) :
    (lib.ret (call_completion lib) < 0 ∧
      app_run lib polls fuel s = (true,
        { s with trace := s.trace ++ [.malloc 128 (lib.malloc 128), .call (call_completion lib),
            .stderr ("could not create aio completion: "
              ++ lib.strerror (-lib.ret (call_completion lib)) ++ "\n")] }))
    ∨ (0 ≤ lib.ret (call_completion lib) ∧ lib.ret (call_read lib s) < 0 ∧
      app_run lib polls fuel s = (true,
        { s with trace := s.trace ++ [.malloc 128 (lib.malloc 128), .call (call_completion lib),
            .call (call_read lib s),
            .stderr ("error reading image:" ++ s.imagename ++ ", "
              ++ lib.strerror (-lib.ret (call_read lib s)) ++ "\n")] }))
    ∨ (0 ≤ lib.ret (call_completion lib) ∧ 0 ≤ lib.ret (call_read lib s) ∧
      ∃ k, k < fuel ∧ (∀ j, j < k → polls j = 0) ∧ polls k ≠ 0 ∧
      app_run lib polls fuel s = (true,
        { s with trace := s.trace ++ ([.malloc 128 (lib.malloc 128),
            .call (call_completion lib), .call (call_read lib s)]
            ++ (waiting k ++ [.read_done (polls k)])) }))
    ∨ (0 ≤ lib.ret (call_completion lib) ∧ 0 ≤ lib.ret (call_read lib s) ∧
      (∀ j, j < fuel → polls j = 0) ∧
      app_run lib polls fuel s = (false,
        { s with trace := s.trace ++ ([.malloc 128 (lib.malloc 128),
            .call (call_completion lib), .call (call_read lib s)] ++ waiting fuel) })) := by
  by_cases h1 : lib.ret (call_completion lib) < 0
  · refine Or.inl ⟨h1, ?_⟩
    simp only [call_completion] at h1
    simp [app_run, State.emit, call_completion, h1]
  have g1 := not_lt.mp h1
  refine Or.inr ?_
  by_cases h2 : lib.ret (call_read lib s) < 0
  · refine Or.inl ⟨g1, h2, ?_⟩
    simp only [call_completion, call_read] at h1 h2
    simp [app_run, State.emit, call_completion, call_read, h1, h2]
  have g2 := not_lt.mp h2
  refine Or.inr ?_
  have hrun := app_run_submitted lib polls fuel s g1 g2
  rcases first_poll polls fuel with ⟨k, hk, h0, hne⟩ | h0
  · refine Or.inl ⟨g1, g2, k, hk, h0, hne, ?_⟩
    rw [hrun, wait_loop_break polls k fuel 0 _ hk (by simpa using h0) (by simpa using hne)]
    simp
  · refine Or.inr ⟨g1, g2, h0, ?_⟩
    rw [hrun, wait_loop_spin polls fuel 0 _ (by simpa using h0)]
    simp

/-- With `argc == 6`, `main` is `app_rbd_open`, then (if that returned 0)
`app_run` and `app_rbd_close`. -/
theorem main_six (lib : Lib) (polls : Nat → Int) (fuel : Nat) (argv : Nat → String) :
    main lib polls fuel 6 argv =
      if (app_rbd_open lib (set_globals argv State.init)).1 = 0 then
        if (app_run lib polls fuel (app_rbd_open lib (set_globals argv State.init)).2).1 = true then
          { ret := some 0,
            st := app_rbd_close
              (app_run lib polls fuel (app_rbd_open lib (set_globals argv State.init)).2).2 }
        else
          { ret := none,
            st := (app_run lib polls fuel (app_rbd_open lib (set_globals argv State.init)).2).2 }
      else { ret := some 0, st := (app_rbd_open lib (set_globals argv State.init)).2 } := by
  simp [main, main_from]

theorem upto_first_failure_initial (lib : Lib) (l : List Call) :
    upto_first_failure lib l <+: l := by
  induction l with
  | nil => simp [upto_first_failure]
  | cons c cs ih =>
    simp only [upto_first_failure]
    split_ifs
    · exact ⟨cs, rfl⟩
    · exact (List.prefix_cons_inj c).mpr ih

theorem setup_calls_append (a b : List Event) :
    setup_calls (a ++ b) = setup_calls a ++ setup_calls b := by
  simp [setup_calls, calls]

/-- The setup calls `app_rbd_open` adds to the trace. -/
theorem app_rbd_open_setup_calls (lib : Lib) (s : State) :
    setup_calls (app_rbd_open lib s).2.trace
      = setup_calls s.trace ++ upto_first_failure lib (setup_seq lib s) := by
  rcases app_rbd_open_cases lib s with
    ⟨h1, e⟩ | ⟨h1, h2, e⟩ | ⟨h1, h2, h3, e⟩ | ⟨h1, h2, h3, h4, e⟩ | ⟨h1, h2, h3, h4, h5, e⟩
    | ⟨h1, h2, h3, h4, h5, h6, e⟩ | ⟨h1, h2, h3, h4, h5, h6, h7, e⟩
    | ⟨h1, h2, h3, h4, h5, h6, h7, h8, e⟩ | ⟨h1, h2, h3, h4, h5, h6, h7, h8, e⟩ <;>
  · rw [e]
    simp only [← not_lt, call_create, call_read_file, call_set_key, call_set_auth, call_set_mon,
      call_connect, call_ioctx, call_open] at *
    simp [*, setup_calls_append, setup_seq, upto_first_failure, setup_calls, calls, Event.call?,
      Call.is_setup, call_create, call_read_file, call_set_key, call_set_auth, call_set_mon,
      call_connect, call_ioctx, call_open]

/-- With `argc == 6`, the library calls of `main` are those of `app_rbd_open`
followed by calls that are not setup calls. -/
theorem main_calls (lib : Lib) (polls : Nat → Int) (fuel : Nat) (argv : Nat → String) :
    ∃ tail, calls (main lib polls fuel 6 argv).st.trace
        = calls (app_rbd_open lib (set_globals argv State.init)).2.trace ++ tail
      ∧ ∀ c ∈ tail, Call.is_setup c = false := by
  by_cases hopen : (app_rbd_open lib (set_globals argv State.init)).1 = 0
  · rw [main_six, if_pos hopen]
    rcases app_run_cases lib polls fuel (app_rbd_open lib (set_globals argv State.init)).2 with
      ⟨_, e⟩ | ⟨_, _, e⟩ | ⟨_, _, k, _, _, _, e⟩ | ⟨_, _, _, e⟩
    · refine ⟨[call_completion lib,
        .rados_ioctx_destroy (app_rbd_open lib (set_globals argv State.init)).2.io_ctx,
        .rados_shutdown (app_rbd_open lib (set_globals argv State.init)).2.cluster], ?_, ?_⟩
      · rw [e]
        simp [app_rbd_close, State.emit, calls_append, calls_nil, calls_cons_call,
          calls_cons_malloc, calls_cons_stderr]
      · simp [call_completion, Call.is_setup]
    · refine ⟨[call_completion lib,
        call_read lib (app_rbd_open lib (set_globals argv State.init)).2,
        .rados_ioctx_destroy (app_rbd_open lib (set_globals argv State.init)).2.io_ctx,
        .rados_shutdown (app_rbd_open lib (set_globals argv State.init)).2.cluster], ?_, ?_⟩
      · rw [e]
        simp [app_rbd_close, State.emit, calls_append, calls_nil, calls_cons_call,
          calls_cons_malloc, calls_cons_stderr]
      · simp [call_completion, call_read, Call.is_setup]
    · refine ⟨[call_completion lib,
        call_read lib (app_rbd_open lib (set_globals argv State.init)).2,
        .rados_ioctx_destroy (app_rbd_open lib (set_globals argv State.init)).2.io_ctx,
        .rados_shutdown (app_rbd_open lib (set_globals argv State.init)).2.cluster], ?_, ?_⟩
      · rw [e]
        simp [app_rbd_close, State.emit, calls_append, calls_nil, calls_cons_call,
          calls_cons_malloc, calls_cons_read_done, calls_waiting]
      · simp [call_completion, call_read, Call.is_setup]
    · refine ⟨[call_completion lib,
        call_read lib (app_rbd_open lib (set_globals argv State.init)).2], ?_, ?_⟩
      · rw [e]
        simp [calls_append, calls_nil, calls_cons_call, calls_cons_malloc, calls_waiting]
      · simp [call_completion, call_read, Call.is_setup]
  · rw [main_six, if_neg hopen]
    exact ⟨[], by simp, by simp⟩

/-- The setup calls of `main` with `argc == 6`. -/
theorem main_setup_calls (lib : Lib) (polls : Nat → Int) (fuel : Nat) (argv : Nat → String) :
    setup_calls (main lib polls fuel 6 argv).st.trace
      = upto_first_failure lib (setup_seq lib (set_globals argv State.init)) := by
  obtain ⟨tail, ht, hns⟩ := main_calls lib polls fuel argv
  have h1 := app_rbd_open_setup_calls lib (set_globals argv State.init)
  have h2 : tail.filter Call.is_setup = [] := by
    rw [List.filter_eq_nil_iff]
    intro c hc
    simp [hns c hc]
  have h3 : setup_calls (set_globals argv State.init).trace = [] := rfl
  rw [h3, List.nil_append] at h1
  unfold setup_calls at h1 ⊢
  rw [ht, List.filter_append, h1, h2, List.append_nil]

/-- Only setup calls are `rados_conf_set` calls. -/
theorem conf_pairs_filter_setup (l : List Call) :
    conf_pairs (l.filter Call.is_setup) = conf_pairs l := by
  induction l with
  | nil => rfl
  | cons c cs ih =>
    cases c <;> simp_all [conf_pairs, Call.is_setup, List.filter_cons]

/-! ## C1: the exit status -/

/-- C1 as worded fails: with `argc == 6`, every library call succeeding and
`done` never seen set, `main` has not returned after any number of tests of
`done`, so this run does not return 0. -/
theorem main_return_zero_refuted :
    (main lib_ok never_done 3 6 argv6).ret = none
    ∧ (∀ fuel, (main lib_ok never_done fuel 6 argv6).ret = none)
    ∧ ¬ ∃ fuel, (main lib_ok never_done fuel 6 argv6).ret = some 0 := by
  have hall : ∀ fuel, (main lib_ok never_done fuel 6 argv6).ret = none := by
    intro fuel
    have hopen : (app_rbd_open lib_ok (set_globals argv6 State.init)).1 = 0 := by decide
    have hrun := app_run_submitted lib_ok never_done fuel
      (app_rbd_open lib_ok (set_globals argv6 State.init)).2 (le_refl 0) (le_refl 0)
    rw [wait_loop_spin never_done fuel 0 _ (fun _ _ => rfl)] at hrun
    rw [main_six, if_pos hopen, hrun]
    rfl
  refine ⟨hall 3, hall, ?_⟩
  rintro ⟨fuel, h⟩
  rw [hall fuel] at h
  exact Option.noConfusion h

/-- C1, amended: `main` returns -1 exactly when `argc != 6`; in that case the
whole trace is the usage line on stderr, so no library call is made.  With
`argc == 6` the only value `main` returns is 0, whatever the library calls
return, and it does return unless it is still in the wait loop with every test
of `done` so far having seen 0; as soon as some test within the bound sees
`done` set, `main` returns 0. -/
theorem main_exit_status (lib : Lib) (polls : Nat → Int) (fuel : Nat) (argc : Int)
    (argv : Nat → String) :
    ((main lib polls fuel argc argv).ret = some (-1) ↔ argc ≠ 6)
    ∧ (argc ≠ 6 →
        (main lib polls fuel argc argv).st.trace = [.stderr (usage (argv 0))]
        ∧ calls (main lib polls fuel argc argv).st.trace = []
        ∧ stderr_of (main lib polls fuel argc argv).st.trace = [usage (argv 0)])
    ∧ (argc = 6 →
        (main lib polls fuel argc argv).ret = some 0
        ∨ ((main lib polls fuel argc argv).ret = none ∧ ∀ j, j < fuel → polls j = 0))
    ∧ (argc = 6 → (∃ k, k < fuel ∧ polls k ≠ 0) →
        (main lib polls fuel argc argv).ret = some 0) := by
  have h6 : argc = 6 →
      (main lib polls fuel argc argv).ret = some 0
      ∨ ((main lib polls fuel argc argv).ret = none ∧ ∀ j, j < fuel → polls j = 0) := by
    intro h
    simp only [main, main_from, h, ne_eq, not_true_eq_false, if_false]
    split_ifs with hr hb
    · exact Or.inl rfl
    · right
      refine ⟨rfl, ?_⟩
      rcases app_run_returned lib polls fuel
        (app_rbd_open lib (set_globals argv State.init)).2 with h1 | h1
      · exact absurd h1 hb
      · exact h1
    · exact Or.inl rfl
  refine ⟨?_, ?_, h6, ?_⟩
  · constructor
    · intro h hc
      rcases h6 hc with h0 | ⟨h0, _⟩ <;> rw [h0] at h <;> simp at h
    · intro h
      simp [main, main_from, h]
  · intro h
    simp [main, main_from, h, State.emit, State.init, calls, stderr_of, Event.call?]
  · rintro h ⟨k, hk, hne⟩
    rcases h6 h with h0 | ⟨_, h0⟩
    · exact h0
    · exact absurd (h0 k hk) hne

/-- C1 (amended) at two concrete runs: too few arguments; a full run in which
`done` is seen set at the third test. -/
theorem main_exit_status_witness :
    (main lib_ok never_done 3 2 argv6).ret = some (-1)
    ∧ (main lib_ok never_done 3 2 argv6).st.trace
        = [.stderr "usage: rados poolname imagename username password monitor\n"]
    ∧ (main lib_ok (done_at 2) 3 6 argv6).ret = some 0 :=
  ⟨(main_exit_status lib_ok never_done 3 2 argv6).1.mpr (by decide),
   ((main_exit_status lib_ok never_done 3 2 argv6).2.1 (by decide)).1.trans (by decide),
   (main_exit_status lib_ok (done_at 2) 3 6 argv6).2.2.2 rfl ⟨2, by decide, by decide⟩⟩

/-! ## C6: the order of the setup calls -/

/-- C6: for every library, the setup calls `app_rbd_open` makes are the calls
`rados_create`, `rados_conf_read_file`, `rados_conf_set` (key), `rados_conf_set`
(auth_supported), `rados_conf_set` (mon_host), `rados_connect`,
`rados_ioctx_create`, `rbd_open`, in this order, up to and including the first
one that returns a negative value (all eight when none does); this is an
initial segment of the eight. -/
theorem setup_order (lib : Lib) (s : State) :
    setup_calls (app_rbd_open lib s).2.trace
        = setup_calls s.trace ++ upto_first_failure lib
            [ .rados_create s.username,
              .rados_conf_read_file (cluster_of lib s) "/etc/ceph/ceph.conf",
              .rados_conf_set (cluster_of lib s) "key" s.password,
              .rados_conf_set (cluster_of lib s) "auth_supported" "cephx",
              .rados_conf_set (cluster_of lib s) "mon_host" s.monitor,
              .rados_connect (cluster_of lib s),
              .rados_ioctx_create (cluster_of lib s) s.poolname,
              .rbd_open (io_of lib s) s.imagename none ]
    ∧ upto_first_failure lib (setup_seq lib s) <+: setup_seq lib s :=
  ⟨app_rbd_open_setup_calls lib s, upto_first_failure_initial lib _⟩

/-- C6 at two concrete runs: `rados_conf_set("key", ..)` fails (third call);
`rbd_open` fails (eighth call). -/
theorem setup_order_witness :
    setup_calls (app_rbd_open lib_bad_key (set_globals argv6 State.init)).2.trace
        = [ .rados_create "user", .rados_conf_read_file 11 "/etc/ceph/ceph.conf",
            .rados_conf_set 11 "key" "pw" ]
    ∧ setup_calls (app_rbd_open lib_no_image (set_globals argv6 State.init)).2.trace
        = [ .rados_create "user", .rados_conf_read_file 11 "/etc/ceph/ceph.conf",
            .rados_conf_set 11 "key" "pw", .rados_conf_set 11 "auth_supported" "cephx",
            .rados_conf_set 11 "mon_host" "mon", .rados_connect 11,
            .rados_ioctx_create 11 "pool", .rbd_open 22 "img" none ] :=
  ⟨(setup_order lib_bad_key (set_globals argv6 State.init)).1.trans (by decide),
   (setup_order lib_no_image (set_globals argv6 State.init)).1.trans (by decide)⟩

/-! ## C9: the wait loop -/

/-- C9: when the completion was created and the read accepted, `app_run`
returns at the first test `k` of `done` that sees it set (given a bound that
allows `k + 1` tests), and what it did after submitting the read is `k` rounds
of "test `done`, see 0, `usleep(100000)`" followed by the test that saw `done`
set; as long as every test so far saw 0 it has not returned. -/
theorem app_run_waits_for_done (lib : Lib) (polls : Nat → Int) (s : State)
    (hmk : 0 ≤ lib.ret (call_completion lib)) (hrd : 0 ≤ lib.ret (call_read lib s)) :
    (∀ k, (∀ j, j < k → polls j = 0) → polls k ≠ 0 → ∀ fuel, k < fuel →
      app_run lib polls fuel s = (true,
        { s with trace := s.trace ++ [.malloc 128 (lib.malloc 128),
            .call (call_completion lib), .call (call_read lib s)]
            ++ waiting k ++ [.read_done (polls k)] }))
    ∧ (∀ fuel, (∀ j, j < fuel → polls j = 0) →
      app_run lib polls fuel s = (false,
        { s with trace := s.trace ++ [.malloc 128 (lib.malloc 128),
            .call (call_completion lib), .call (call_read lib s)] ++ waiting fuel })) := by
  constructor
  · intro k h0 hne fuel hk
    rw [app_run_submitted lib polls fuel s hmk hrd,
      wait_loop_break polls k fuel 0 _ hk (by simpa using h0) (by simpa using hne)]
    simp
  · intro fuel h0
    rw [app_run_submitted lib polls fuel s hmk hrd,
      wait_loop_spin polls fuel 0 _ (by simpa using h0)]

/-- C9 at a concrete run: every call succeeds and `done` is first seen set at
the third test. -/
theorem app_run_waits_for_done_witness :
    app_run lib_ok (done_at 2) 5 State.init = (true,
      { State.init with trace :=
          [.malloc 128 4096, .call (.rbd_aio_create_completion 4096 .app_finish_aiocb),
           .call (.rbd_aio_read 0 0 128 4096 44),
           .read_done 0, .usleep 100000, .read_done 0, .usleep 100000, .read_done 1] })
    ∧ (app_run lib_ok never_done 3 State.init).1 = false :=
  ⟨(app_run_waits_for_done lib_ok (done_at 2) State.init (by decide) (by decide)).1 2
      (by decide) (by decide) 5 (by decide),
   congrArg Prod.fst
     ((app_run_waits_for_done lib_ok never_done State.init (by decide) (by decide)).2 3
       (fun _ _ => rfl))⟩

/-! ## C8: the completion callback -/

/-- Storing a value that is in the range of `int` leaves it unchanged. -/
theorem to_int_of_range (v : Int) (hlo : -2147483648 ≤ v) (hhi : v < 2147483648) :
    to_int v = v := by
  unfold to_int
  omega

/-- C8 as worded fails: the library reports `r = 4294967291`, which is not
negative, and the callback still writes the "error reading image" message,
because `r` stored in `int ret` is -5. -/
theorem callback_error_test_refuted :
    ¬ lib_wide_result.ret (.rbd_aio_get_return_value 44) < 0
    ∧ to_int (lib_wide_result.ret (.rbd_aio_get_return_value 44)) = -5
    ∧ stderr_of (app_finish_aiocb lib_wide_result 44 4096 (set_globals argv6 State.init)).trace
        = ["error reading image:img, E"] := by
  decide

/-- C8, amended: for every value `r` that `rbd_aio_get_return_value` reports,
`app_finish_aiocb` asks for that value, writes the framed "buffer read:" block
with the buffer to stdout, releases the completion once, and leaves
`done == 1`; the "error reading image" message goes to stderr exactly when `r`
as stored in `int ret` is negative, before the block, which is written in both
cases; for every `r` in the range of `int` that is exactly when `r < 0`. -/
theorem app_finish_aiocb_effect (lib : Lib) (c : Handle) (buf : Ptr) (s : State) :
    (app_finish_aiocb lib c buf s).done = 1
    ∧ (app_finish_aiocb lib c buf s).trace
        = s.trace ++ [.call (.rbd_aio_get_return_value c)]
          ++ (if to_int (lib.ret (.rbd_aio_get_return_value c)) < 0 then
                [.stderr ("error reading image:" ++ s.imagename ++ ", "
                  ++ lib.strerror (to_int (-to_int (lib.ret (.rbd_aio_get_return_value c)))))]
              else [])
          ++ [.stdout ("buffer read:\n========================================\n"
                ++ lib.cstr buf ++ "\n" ++ "========================================\n"),
              .call (.rbd_aio_release c)]
    ∧ stdout_of (app_finish_aiocb lib c buf s).trace
        = stdout_of s.trace ++ ["buffer read:\n========================================\n"
            ++ lib.cstr buf ++ "\n" ++ "========================================\n"]
    ∧ calls (app_finish_aiocb lib c buf s).trace
        = calls s.trace ++ [.rbd_aio_get_return_value c, .rbd_aio_release c]
    ∧ (stderr_of (app_finish_aiocb lib c buf s).trace
          = stderr_of s.trace ++ ["error reading image:" ++ s.imagename ++ ", "
              ++ lib.strerror (to_int (-to_int (lib.ret (.rbd_aio_get_return_value c))))]
        ↔ to_int (lib.ret (.rbd_aio_get_return_value c)) < 0)
    ∧ (stderr_of (app_finish_aiocb lib c buf s).trace = stderr_of s.trace
        ↔ ¬ to_int (lib.ret (.rbd_aio_get_return_value c)) < 0)
    ∧ (-2147483648 ≤ lib.ret (.rbd_aio_get_return_value c) →
        lib.ret (.rbd_aio_get_return_value c) < 2147483648 →
        ((stderr_of (app_finish_aiocb lib c buf s).trace
            = stderr_of s.trace ++ ["error reading image:" ++ s.imagename ++ ", "
                ++ lib.strerror (to_int (-lib.ret (.rbd_aio_get_return_value c)))]
          ↔ lib.ret (.rbd_aio_get_return_value c) < 0)
        ∧ (stderr_of (app_finish_aiocb lib c buf s).trace = stderr_of s.trace
          ↔ ¬ lib.ret (.rbd_aio_get_return_value c) < 0))) := by
  have main5 : ∀ r : Int, to_int (lib.ret (.rbd_aio_get_return_value c)) = r →
      (app_finish_aiocb lib c buf s).done = 1
      ∧ (app_finish_aiocb lib c buf s).trace
          = s.trace ++ [.call (.rbd_aio_get_return_value c)]
            ++ (if r < 0 then
                  [.stderr ("error reading image:" ++ s.imagename ++ ", "
                    ++ lib.strerror (to_int (-r)))]
                else [])
            ++ [.stdout ("buffer read:\n========================================\n"
                  ++ lib.cstr buf ++ "\n" ++ "========================================\n"),
                .call (.rbd_aio_release c)]
      ∧ stdout_of (app_finish_aiocb lib c buf s).trace
          = stdout_of s.trace ++ ["buffer read:\n========================================\n"
              ++ lib.cstr buf ++ "\n" ++ "========================================\n"]
      ∧ calls (app_finish_aiocb lib c buf s).trace
          = calls s.trace ++ [.rbd_aio_get_return_value c, .rbd_aio_release c]
      ∧ (stderr_of (app_finish_aiocb lib c buf s).trace
            = stderr_of s.trace ++ ["error reading image:" ++ s.imagename ++ ", "
                ++ lib.strerror (to_int (-r))]
          ↔ r < 0)
      ∧ (stderr_of (app_finish_aiocb lib c buf s).trace = stderr_of s.trace ↔ ¬ r < 0) := by
    intro r hr
    by_cases h : r < 0 <;>
      simp [app_finish_aiocb, State.emit, hr, h, rule, stdout_of, stderr_of, calls, Event.call?]
  obtain ⟨h1, h2, h3, h4, h5, h6⟩ := main5 _ rfl
  refine ⟨h1, h2, h3, h4, h5, h6, ?_⟩
  intro hlo hhi
  have hr := to_int_of_range _ hlo hhi
  obtain ⟨_, _, _, _, g5, g6⟩ := main5 _ hr
  exact ⟨g5, g6⟩

/-- C8 (amended) at two concrete completions: one whose read failed with -5,
one whose read succeeded. -/
theorem app_finish_aiocb_effect_witness :
    (app_finish_aiocb lib_read_error 44 4096 (set_globals argv6 State.init)).trace
        = [.call (.rbd_aio_get_return_value 44), .stderr "error reading image:img, E",
           .stdout ("buffer read:\n========================================\n"
             ++ "data\n========================================\n"),
           .call (.rbd_aio_release 44)]
    ∧ (app_finish_aiocb lib_ok 44 4096 (set_globals argv6 State.init)).trace
        = [.call (.rbd_aio_get_return_value 44),
           .stdout ("buffer read:\n========================================\n"
             ++ "data\n========================================\n"),
           .call (.rbd_aio_release 44)]
    ∧ (stderr_of (app_finish_aiocb lib_read_error 44 4096 (set_globals argv6 State.init)).trace
          = ["error reading image:img, E"]
        ↔ lib_read_error.ret (.rbd_aio_get_return_value 44) < 0) :=
  ⟨(app_finish_aiocb_effect lib_read_error 44 4096 (set_globals argv6 State.init)).2.1.trans
      (by decide),
   (app_finish_aiocb_effect lib_ok 44 4096 (set_globals argv6 State.init)).2.1.trans
      (by decide),
   ((app_finish_aiocb_effect lib_read_error 44 4096
      (set_globals argv6 State.init)).2.2.2.2.2.2 (by decide) (by decide)).1⟩

/-! ## C5: the one read -/

/-- What `app_run` does from any state: it allocates 128 bytes, creates a
completion whose callback is `app_finish_aiocb` with the pointer `malloc`
returned as argument, and, unless that fails, next issues one `rbd_aio_read` of
the handle in `image` at offset 0, length 128, into that pointer with that
completion; these are all the library calls it makes.  After a setup in which
all eight calls succeeded, `image` is the handle `rbd_open` stored. -/
theorem app_run_single_read (lib : Lib) (polls : Nat → Int) (fuel : Nat) (s : State) :
    calls (app_run lib polls fuel s).2.trace
      = calls s.trace ++
          (if lib.ret (.rbd_aio_create_completion (lib.malloc 128) .app_finish_aiocb) < 0 then
            [.rbd_aio_create_completion (lib.malloc 128) .app_finish_aiocb]
          else
            [.rbd_aio_create_completion (lib.malloc 128) .app_finish_aiocb,
             .rbd_aio_read s.image 0 128 (lib.malloc 128)
               (lib.out (.rbd_aio_create_completion (lib.malloc 128) .app_finish_aiocb))])
    ∧ (∃ rest, calls rest = [] ∧ (app_run lib polls fuel s).2.trace
        = s.trace ++ [.malloc 128 (lib.malloc 128),
            .call (.rbd_aio_create_completion (lib.malloc 128) .app_finish_aiocb)]
          ++ (if lib.ret (.rbd_aio_create_completion (lib.malloc 128) .app_finish_aiocb) < 0
              then []
              else [.call (.rbd_aio_read s.image 0 128 (lib.malloc 128)
                (lib.out (.rbd_aio_create_completion (lib.malloc 128) .app_finish_aiocb)))])
          ++ rest)
    ∧ (calls (app_run lib polls fuel s).2.trace).countP Call.is_read
        = (calls s.trace).countP Call.is_read
          + (if lib.ret (.rbd_aio_create_completion (lib.malloc 128) .app_finish_aiocb) < 0
             then 0 else 1)
    ∧ ((∀ c ∈ setup_seq lib s, 0 ≤ lib.ret c) →
        (app_rbd_open lib s).1 = 0
        ∧ .call (call_open lib s) ∈ (app_rbd_open lib s).2.trace
        ∧ (app_rbd_open lib s).2.image = lib.out (call_open lib s)) := by
  have hcalls : calls (app_run lib polls fuel s).2.trace
      = calls s.trace ++
          (if lib.ret (.rbd_aio_create_completion (lib.malloc 128) .app_finish_aiocb) < 0 then
            [.rbd_aio_create_completion (lib.malloc 128) .app_finish_aiocb]
          else
            [.rbd_aio_create_completion (lib.malloc 128) .app_finish_aiocb,
             .rbd_aio_read s.image 0 128 (lib.malloc 128)
               (lib.out (.rbd_aio_create_completion (lib.malloc 128) .app_finish_aiocb))]) := by
    rcases app_run_cases lib polls fuel s with
      ⟨h1, e⟩ | ⟨h1, h2, e⟩ | ⟨h1, h2, k, _, _, _, e⟩ | ⟨h1, h2, _, e⟩ <;>
    · rw [e]
      simp only [← not_lt, call_completion, call_read] at *
      simp [*, calls_append, calls_waiting, calls_nil, calls_cons_call, calls_cons_malloc,
        calls_cons_usleep, calls_cons_read_done, calls_cons_stderr, calls_cons_stdout]
  refine ⟨hcalls, ?_, ?_, ?_⟩
  · rcases app_run_cases lib polls fuel s with
      ⟨h1, e⟩ | ⟨h1, h2, e⟩ | ⟨h1, h2, k, _, _, _, e⟩ | ⟨h1, h2, _, e⟩
    · refine ⟨[.stderr ("could not create aio completion: "
          ++ lib.strerror (-lib.ret (call_completion lib)) ++ "\n")], rfl, ?_⟩
      rw [e]; simp only [call_completion] at h1 ⊢; simp [h1]
    · refine ⟨[.stderr ("error reading image:" ++ s.imagename ++ ", "
          ++ lib.strerror (-lib.ret (call_read lib s)) ++ "\n")], rfl, ?_⟩
      rw [e]; simp only [call_completion, call_read, ← not_lt] at h1 ⊢; simp [h1]
    · refine ⟨waiting k ++ [.read_done (polls k)], ?_, ?_⟩
      · simp [calls_append, calls_waiting, calls_cons_read_done, calls_nil]
      · rw [e]; simp only [call_completion, call_read, ← not_lt] at h1 ⊢; simp [h1]
    · refine ⟨waiting fuel, calls_waiting _, ?_⟩
      rw [e]; simp only [call_completion, call_read, ← not_lt] at h1 ⊢; simp [h1]
  · rw [hcalls]
    split_ifs <;> simp [Call.is_read]
  · intro hall
    simp only [setup_seq, List.mem_cons, List.mem_singleton, List.not_mem_nil, or_false,
      forall_eq_or_imp, forall_eq] at hall
    obtain ⟨a1, a2, a3, a4, a5, a6, a7, a8⟩ := hall
    rcases app_rbd_open_cases lib s with
      ⟨h1, _⟩ | ⟨_, h2, _⟩ | ⟨_, _, h3, _⟩ | ⟨_, _, _, h4, _⟩ | ⟨_, _, _, _, h5, _⟩
      | ⟨_, _, _, _, _, h6, _⟩ | ⟨_, _, _, _, _, _, h7, _⟩
      | ⟨_, _, _, _, _, _, _, h8, _⟩ | ⟨_, _, _, _, _, _, _, _, e⟩
    · omega
    · omega
    · omega
    · omega
    · omega
    · omega
    · omega
    · omega
    · rw [e]
      simp [image_of]

/-- C5 at the failing input of C2: `rados_conf_set("key", ..)` returns -22
after `rados_conf_read_file` returned 0.  `app_rbd_open` returns 0 without
having called `rbd_open`, `image` still holds 0, and `app_run` issues its read
on that handle.  Second input: every call succeeds but `malloc` returns NULL;
the pointer is not tested and the read is issued into address 0. -/
theorem read_on_unopened_image :
    (app_rbd_open lib_bad_key (set_globals argv6 State.init)).1 = 0
    ∧ (app_rbd_open lib_bad_key (set_globals argv6 State.init)).2.image = 0
    ∧ Fn.rbd_open ∉ (calls (main lib_bad_key (done_at 0) 1 6 argv6).st.trace).map Call.fn
    ∧ (calls (main lib_bad_key (done_at 0) 1 6 argv6).st.trace).filter Call.is_read
        = [.rbd_aio_read 0 0 128 4096 44]
    ∧ Event.malloc 128 0 ∈ (main lib_null_malloc (done_at 0) 1 6 argv6).st.trace
    ∧ (calls (main lib_null_malloc (done_at 0) 1 6 argv6).st.trace).filter Call.is_read
        = [.rbd_aio_read 33 0 128 0 44] := by
  decide

/-! ## C10: no wait without a submitted read -/

/-- C10: if `rbd_aio_create_completion` returns a negative value, `app_run`
writes "could not create aio completion" to stderr and returns with no
`rbd_aio_read`, no test of `done` and no sleep; if `rbd_aio_read` returns a
negative value, it writes "error reading image" to stderr and returns with no
test of `done` and no sleep; both hold whatever the bound on the loop.  In both
cases `main` (entered with `argc == 6`, `app_rbd_open` having returned 0) goes
on to `app_rbd_close`: `rados_ioctx_destroy` and `rados_shutdown` end the trace,
and `main` returns 0. -/
theorem app_run_no_wait (lib : Lib) (polls : Nat → Int) (fuel : Nat) :
    (∀ s : State, lib.ret (call_completion lib) < 0 →
      app_run lib polls fuel s = (true,
        { s with trace := s.trace ++ [.malloc 128 (lib.malloc 128), .call (call_completion lib),
            .stderr ("could not create aio completion: "
              ++ lib.strerror (-lib.ret (call_completion lib)) ++ "\n")] }))
    ∧ (∀ s : State, 0 ≤ lib.ret (call_completion lib) → lib.ret (call_read lib s) < 0 →
      app_run lib polls fuel s = (true,
        { s with trace := s.trace ++ [.malloc 128 (lib.malloc 128), .call (call_completion lib),
            .call (call_read lib s),
            .stderr ("error reading image:" ++ s.imagename ++ ", "
              ++ lib.strerror (-lib.ret (call_read lib s)) ++ "\n")] }))
    ∧ (∀ argv : Nat → String, (app_rbd_open lib (set_globals argv State.init)).1 = 0 →
        (lib.ret (call_completion lib) < 0
          ∨ lib.ret (call_read lib (app_rbd_open lib (set_globals argv State.init)).2) < 0) →
        (main lib polls fuel 6 argv).ret = some 0
        ∧ (main lib polls fuel 6 argv).st.trace
            = (app_run lib polls fuel (app_rbd_open lib (set_globals argv State.init)).2).2.trace
              ++ [.call (.rados_ioctx_destroy
                    (app_rbd_open lib (set_globals argv State.init)).2.io_ctx),
                  .call (.rados_shutdown
                    (app_rbd_open lib (set_globals argv State.init)).2.cluster)]) := by
  refine ⟨?_, ?_, ?_⟩
  · intro s h
    rcases app_run_cases lib polls fuel s with
      ⟨_, e⟩ | ⟨h1, _, _⟩ | ⟨h1, _, _⟩ | ⟨h1, _, _⟩
    · exact e
    · omega
    · omega
    · omega
  · intro s h h'
    rcases app_run_cases lib polls fuel s with
      ⟨h1, _⟩ | ⟨_, _, e⟩ | ⟨_, h2, _⟩ | ⟨_, h2, _⟩
    · omega
    · exact e
    · omega
    · omega
  · intro argv hopen hfail
    rw [main_six, if_pos hopen]
    rcases app_run_cases lib polls fuel (app_rbd_open lib (set_globals argv State.init)).2 with
      ⟨_, e⟩ | ⟨_, _, e⟩ | ⟨h1, h2, _⟩ | ⟨h1, h2, _⟩
    · rw [e]
      simp [app_rbd_close, State.emit]
    · rw [e]
      simp [app_rbd_close, State.emit]
    · omega
    · omega

/-- C10 at two concrete runs: the completion cannot be created; the read is
refused.  `done` is never set and the bound on the loop is 0. -/
theorem app_run_no_wait_witness :
    (main lib_no_completion never_done 0 6 argv6).ret = some 0
    ∧ ((main lib_no_completion never_done 0 6 argv6).st.trace.drop 9
        = [.malloc 128 4096, .call (.rbd_aio_create_completion 4096 .app_finish_aiocb),
           .stderr "could not create aio completion: E\n",
           .call (.rados_ioctx_destroy 22), .call (.rados_shutdown 11)])
    ∧ (main lib_bad_read never_done 0 6 argv6).ret = some 0
    ∧ ((main lib_bad_read never_done 0 6 argv6).st.trace.drop 9
        = [.malloc 128 4096, .call (.rbd_aio_create_completion 4096 .app_finish_aiocb),
           .call (.rbd_aio_read 33 0 128 4096 44),
           .stderr "error reading image:img, E\n",
           .call (.rados_ioctx_destroy 22), .call (.rados_shutdown 11)]) :=
  ⟨((app_run_no_wait lib_no_completion never_done 0).2.2 argv6 (by decide)
      (Or.inl (by decide))).1,
   (congrArg (List.drop 9) ((app_run_no_wait lib_no_completion never_done 0).2.2 argv6
      (by decide) (Or.inl (by decide))).2).trans (by decide),
   ((app_run_no_wait lib_bad_read never_done 0).2.2 argv6 (by decide)
      (Or.inr (by decide))).1,
   (congrArg (List.drop 9) ((app_run_no_wait lib_bad_read never_done 0).2.2 argv6
      (by decide) (Or.inr (by decide))).2).trans (by decide)⟩

/-! ## C4: the command line reaches the library as the usage line says -/

/-- C4: with `argc == 6`, the setup calls of `main` are, in this order and up
to the first that fails, `rados_create(argv[3])`,
`rados_conf_read_file("/etc/ceph/ceph.conf")`, `rados_conf_set("key", argv[4])`,
`rados_conf_set("auth_supported", "cephx")`, `rados_conf_set("mon_host",
argv[5])`, `rados_connect`, `rados_ioctx_create(argv[1])` and
`rbd_open(argv[2], NULL)`; so every such call in the trace has these arguments,
and the `rados_conf_set` calls made are an initial segment of the three. -/
theorem args_follow_usage (lib : Lib) (polls : Nat → Int) (fuel : Nat) (argc : Int)
    (argv : Nat → String) (h : argc = 6) :
    setup_calls (main lib polls fuel argc argv).st.trace
        = upto_first_failure lib
            [ .rados_create (argv 3),
              .rados_conf_read_file (lib.out (.rados_create (argv 3))) "/etc/ceph/ceph.conf",
              .rados_conf_set (lib.out (.rados_create (argv 3))) "key" (argv 4),
              .rados_conf_set (lib.out (.rados_create (argv 3))) "auth_supported" "cephx",
              .rados_conf_set (lib.out (.rados_create (argv 3))) "mon_host" (argv 5),
              .rados_connect (lib.out (.rados_create (argv 3))),
              .rados_ioctx_create (lib.out (.rados_create (argv 3))) (argv 1),
              .rbd_open (lib.out (.rados_ioctx_create (lib.out (.rados_create (argv 3))) (argv 1)))
                (argv 2) none ]
    ∧ (∀ c ∈ calls (main lib polls fuel argc argv).st.trace, usage_args argv c)
    ∧ conf_pairs (calls (main lib polls fuel argc argv).st.trace)
        <+: [("key", argv 4), ("auth_supported", "cephx"), ("mon_host", argv 5)] := by
  subst h
  have hs := main_setup_calls lib polls fuel argv
  have hp := upto_first_failure_initial lib (setup_seq lib (set_globals argv State.init))
  refine ⟨hs, ?_, ?_⟩
  · intro c hc
    by_cases hset : Call.is_setup c = true
    · have hmem : c ∈ setup_calls (main lib polls fuel 6 argv).st.trace := by
        unfold setup_calls
        exact List.mem_filter.mpr ⟨hc, hset⟩
      rw [hs] at hmem
      have hseq := hp.subset hmem
      simp only [setup_seq, call_create, call_read_file, call_set_key, call_set_auth,
        call_set_mon, call_connect, call_ioctx, call_open, cluster_of, io_of, set_globals,
        List.mem_cons, List.mem_singleton, List.not_mem_nil, or_false] at hseq
      rcases hseq with e | e | e | e | e | e | e | e <;> subst e <;> simp [usage_args]
    · cases c <;> simp_all [Call.is_setup, usage_args]
  · have h1 : conf_pairs (calls (main lib polls fuel 6 argv).st.trace)
        = conf_pairs (setup_calls (main lib polls fuel 6 argv).st.trace) := by
      unfold setup_calls
      rw [conf_pairs_filter_setup]
    rw [h1, hs]
    have h2 := List.IsPrefix.filterMap
      (fun c => match c with | Call.rados_conf_set _ k v => some (k, v) | _ => none) hp
    simpa [conf_pairs, setup_seq, call_create, call_read_file, call_set_key, call_set_auth,
      call_set_mon, call_connect, call_ioctx, call_open, set_globals] using h2

/-- C4 at a concrete run in which every call succeeds: all eight setup calls
are reached, with the arguments in the positions the usage line names. -/
theorem args_follow_usage_witness :
    setup_calls (main lib_ok (done_at 1) 4 6 argv6).st.trace
      = [ .rados_create "user", .rados_conf_read_file 11 "/etc/ceph/ceph.conf",
          .rados_conf_set 11 "key" "pw", .rados_conf_set 11 "auth_supported" "cephx",
          .rados_conf_set 11 "mon_host" "mon", .rados_connect 11,
          .rados_ioctx_create 11 "pool", .rbd_open 22 "img" none ] :=
  (args_follow_usage lib_ok (done_at 1) 4 6 argv6 rfl).1.trans (by decide)

/-! ## C3: the setup sequence on a successful run -/

/-- C3 as worded fails: with every library call succeeding, `app_rbd_open`
makes eight library calls, not five; `rados_ioctx_create`, which is none of the
five functions named, comes between `rados_connect` and `rbd_open`, and
`rbd_aio_create_completion` comes between `rbd_open` and the read. -/
theorem five_step_setup_refuted :
    (∀ c, 0 ≤ lib_ok.ret c)
    ∧ (calls (app_rbd_open lib_ok (set_globals argv6 State.init)).2.trace).map Call.fn
        = [.rados_create, .rados_conf_read_file, .rados_conf_set, .rados_conf_set,
           .rados_conf_set, .rados_connect, .rados_ioctx_create, .rbd_open]
    ∧ (calls (app_rbd_open lib_ok (set_globals argv6 State.init)).2.trace).map Call.fn
        ≠ five_step_setup
    ∧ Fn.rados_ioctx_create ∉ five_step_setup
    ∧ ((calls (main lib_ok (done_at 0) 1 6 argv6).st.trace).takeWhile
          (fun c => !c.is_read)).map Call.fn
        = [.rados_create, .rados_conf_read_file, .rados_conf_set, .rados_conf_set,
           .rados_conf_set, .rados_connect, .rados_ioctx_create, .rbd_open,
           .rbd_aio_create_completion] :=
  ⟨fun _ => le_refl 0, by decide, by decide, by decide, by decide⟩

/-- C3, amended: on a run (`argc == 6`) where every library call succeeds,
`app_rbd_open` returns 0 after exactly eight library calls, in this order:
`rados_create`, `rados_conf_read_file`, `rados_conf_set` three times (key,
auth_supported, mon_host), `rados_connect`, `rados_ioctx_create`, `rbd_open`;
the only library call between them and the asynchronous read is
`rbd_aio_create_completion`, and what follows the read is the teardown, if
`main` has returned. -/
theorem setup_is_eight_calls (lib : Lib) (polls : Nat → Int) (fuel : Nat)
    (argv : Nat → String) (hall : ∀ c, 0 ≤ lib.ret c) :
    (app_rbd_open lib (set_globals argv State.init)).1 = 0
    ∧ calls (app_rbd_open lib (set_globals argv State.init)).2.trace
        = [ .rados_create (argv 3),
            .rados_conf_read_file (lib.out (.rados_create (argv 3))) "/etc/ceph/ceph.conf",
            .rados_conf_set (lib.out (.rados_create (argv 3))) "key" (argv 4),
            .rados_conf_set (lib.out (.rados_create (argv 3))) "auth_supported" "cephx",
            .rados_conf_set (lib.out (.rados_create (argv 3))) "mon_host" (argv 5),
            .rados_connect (lib.out (.rados_create (argv 3))),
            .rados_ioctx_create (lib.out (.rados_create (argv 3))) (argv 1),
            .rbd_open (lib.out (.rados_ioctx_create (lib.out (.rados_create (argv 3))) (argv 1)))
              (argv 2) none ]
    ∧ (calls (app_rbd_open lib (set_globals argv State.init)).2.trace).map Call.fn
        = [.rados_create, .rados_conf_read_file, .rados_conf_set, .rados_conf_set,
           .rados_conf_set, .rados_connect, .rados_ioctx_create, .rbd_open]
    ∧ ∃ rest, (rest = [] ∨ rest =
          [.rados_ioctx_destroy (io_of lib (set_globals argv State.init)),
           .rados_shutdown (cluster_of lib (set_globals argv State.init))])
        ∧ calls (main lib polls fuel 6 argv).st.trace
          = calls (app_rbd_open lib (set_globals argv State.init)).2.trace
            ++ [.rbd_aio_create_completion (lib.malloc 128) .app_finish_aiocb,
                .rbd_aio_read (image_of lib (set_globals argv State.init)) 0 128 (lib.malloc 128)
                  (lib.out (.rbd_aio_create_completion (lib.malloc 128) .app_finish_aiocb))]
            ++ rest := by
  have a1 := hall (call_create (set_globals argv State.init))
  have a2 := hall (call_read_file lib (set_globals argv State.init))
  have a3 := hall (call_set_key lib (set_globals argv State.init))
  have a4 := hall (call_set_auth lib (set_globals argv State.init))
  have a5 := hall (call_set_mon lib (set_globals argv State.init))
  have a6 := hall (call_connect lib (set_globals argv State.init))
  have a7 := hall (call_ioctx lib (set_globals argv State.init))
  have a8 := hall (call_open lib (set_globals argv State.init))
  rcases app_rbd_open_cases lib (set_globals argv State.init) with
    ⟨h1, _⟩ | ⟨_, h2, _⟩ | ⟨_, _, h3, _⟩ | ⟨_, _, _, h4, _⟩ | ⟨_, _, _, _, h5, _⟩
    | ⟨_, _, _, _, _, h6, _⟩ | ⟨_, _, _, _, _, _, h7, _⟩
    | ⟨_, _, _, _, _, _, _, h8, _⟩ | ⟨_, _, _, _, _, _, _, _, e⟩
  · omega
  · omega
  · omega
  · omega
  · omega
  · omega
  · omega
  · omega
  have hopen : (app_rbd_open lib (set_globals argv State.init)).1 = 0 := by rw [e]
  have hcalls : calls (app_rbd_open lib (set_globals argv State.init)).2.trace
      = setup_seq lib (set_globals argv State.init) := by
    rw [e]
    simp [State.init, set_globals, setup_seq, calls_nil, calls_cons_call, calls_cons_stdout]
  refine ⟨hopen, ?_, ?_, ?_⟩
  · rw [hcalls]
    simp [setup_seq, call_create, call_read_file, call_set_key, call_set_auth,
      call_set_mon, call_connect, call_ioctx, call_open, cluster_of, io_of, set_globals]
  · rw [hcalls]
    simp [setup_seq, call_create, call_read_file, call_set_key, call_set_auth,
      call_set_mon, call_connect, call_ioctx, call_open, Call.fn]
  · have b1 := hall (call_completion lib)
    have b2 := hall (call_read lib (app_rbd_open lib (set_globals argv State.init)).2)
    rw [main_six, if_pos hopen]
    rcases app_run_cases lib polls fuel (app_rbd_open lib (set_globals argv State.init)).2 with
      ⟨h1, _⟩ | ⟨_, h2, _⟩ | ⟨_, _, k, _, _, _, er⟩ | ⟨_, _, _, er⟩
    · omega
    · omega
    · refine ⟨_, Or.inr rfl, ?_⟩
      rw [er]
      simp only [e]
      simp [app_rbd_close, State.emit, calls_append, calls_nil, calls_cons_call,
        calls_cons_malloc, calls_cons_read_done, calls_cons_stdout, calls_waiting,
        call_completion, call_read]
    · refine ⟨_, Or.inl rfl, ?_⟩
      rw [er]
      simp only [e]
      simp [calls_append, calls_nil, calls_cons_call, calls_cons_malloc, calls_cons_stdout,
        calls_waiting, call_completion, call_read]

/-- C3 (amended) at a concrete successful run. -/
theorem setup_is_eight_calls_witness :
    calls (main lib_ok (done_at 0) 1 6 argv6).st.trace
      = [ .rados_create "user", .rados_conf_read_file 11 "/etc/ceph/ceph.conf",
          .rados_conf_set 11 "key" "pw", .rados_conf_set 11 "auth_supported" "cephx",
          .rados_conf_set 11 "mon_host" "mon", .rados_connect 11,
          .rados_ioctx_create 11 "pool", .rbd_open 22 "img" none,
          .rbd_aio_create_completion 4096 .app_finish_aiocb,
          .rbd_aio_read 33 0 128 4096 44,
          .rados_ioctx_destroy 22, .rados_shutdown 11 ]
    ∧ (app_rbd_open lib_ok (set_globals argv6 State.init)).1 = 0 :=
  ⟨by decide, (setup_is_eight_calls lib_ok (done_at 0) 1 argv6 (fun _ => le_refl 0)).1⟩

/-! ## C2 and C7: a failing `conf_set` is not reported -/

/-- `app_rbd_open` returns 0 exactly when all eight setup calls succeeded, or
`rados_conf_read_file` returned 0 and one of the `conf_set` calls then failed. -/
theorem app_rbd_open_zero_iff (lib : Lib) (s : State) :
    (app_rbd_open lib s).1 = 0 ↔
      (∀ c ∈ setup_seq lib s, 0 ≤ lib.ret c)
      ∨ (0 ≤ lib.ret (call_create s) ∧ lib.ret (call_read_file lib s) = 0
          ∧ (lib.ret (call_set_key lib s) < 0 ∨ lib.ret (call_set_auth lib s) < 0
              ∨ lib.ret (call_set_mon lib s) < 0)) := by
  simp only [setup_seq, List.mem_cons, List.mem_singleton, List.not_mem_nil, or_false,
    forall_eq_or_imp, forall_eq]
  rcases app_rbd_open_cases lib s with
    ⟨h1, e⟩ | ⟨h1, h2, e⟩ | ⟨h1, h2, h3, e⟩ | ⟨h1, h2, h3, h4, e⟩ | ⟨h1, h2, h3, h4, h5, e⟩
    | ⟨h1, h2, h3, h4, h5, h6, e⟩ | ⟨h1, h2, h3, h4, h5, h6, h7, e⟩
    | ⟨h1, h2, h3, h4, h5, h6, h7, h8, e⟩ | ⟨h1, h2, h3, h4, h5, h6, h7, h8, e⟩
  case inr.inr.inr.inr.inr.inr.inr.inr =>
    rw [e]
    exact ⟨fun _ => Or.inl ⟨h1, h2, h3, h4, h5, h6, h7, h8⟩, fun _ => rfl⟩
  all_goals
    rw [e]
    simp only
    constructor
    · intro h
      by_contra hc
      simp only [not_or, not_and_or, not_le, not_lt] at hc
      omega
    · intro h
      omega

/-- C2 at the failing input: `rados_conf_set("key", ..)` returns -22 after
`rados_conf_read_file` returned 0.  `app_rbd_open` shuts the cluster down and
returns 0, so `main` calls `app_run`, which creates a completion and issues the
read on an image that was never opened, and then `app_rbd_close`. -/
theorem conf_set_failure_reaches_read :
    lib_bad_key.ret (call_set_key lib_bad_key (set_globals argv6 State.init)) = -22
    ∧ (app_rbd_open lib_bad_key (set_globals argv6 State.init)).1 = 0
    ∧ (main lib_bad_key (done_at 0) 1 6 argv6).ret = some 0
    ∧ calls (main lib_bad_key (done_at 0) 1 6 argv6).st.trace
      = [ .rados_create "user", .rados_conf_read_file 11 "/etc/ceph/ceph.conf",
          .rados_conf_set 11 "key" "pw", .rados_shutdown 11,
          .rbd_aio_create_completion 4096 .app_finish_aiocb,
          .rbd_aio_read 0 0 128 4096 44,
          .rados_ioctx_destroy 0, .rados_shutdown 11 ]
    ∧ stderr_of (main lib_bad_key (done_at 0) 1 6 argv6).st.trace
      = ["invalid conf option: key\n"] := by
  decide

/-- C7 at the same failing input: `rados_create` succeeded and
`rados_ioctx_create` was never called, yet `rados_shutdown` is called twice and
`rados_ioctx_destroy` once. -/
theorem teardown_after_conf_set_failure :
    0 ≤ lib_bad_key.ret (call_create (set_globals argv6 State.init))
    ∧ (calls (main lib_bad_key (done_at 0) 1 6 argv6).st.trace).countP Call.is_ioctx_create = 0
    ∧ (calls (main lib_bad_key (done_at 0) 1 6 argv6).st.trace).countP Call.is_ioctx_destroy = 1
    ∧ (calls (main lib_bad_key (done_at 0) 1 6 argv6).st.trace).countP Call.is_shutdown = 2 := by
  decide

end Rados
